import Mathlib

/-!
Verification development for the pdp-comp-analysis repository.

The repository is a Next.js orchestration gateway in front of an external
analysis service, plus a client page that drives a two stage chain
(discover competitor, then compare pages).  The gateway route handlers
(`src/frontend/src/app/api/find-competitor/route.ts`,
`src/frontend/src/app/api/analyze-single/route.ts` and the authenticated
variants), the shared data types (`types/analysis.ts`, embedded after
`ComparisonBar.tsx`), and the client state machine
(`src/frontend/src/app/page.tsx`, `handleSubmit`) are shallowly embedded
below as pure Lean functions over explicit environments: the environment
supplies the outcome of each external interaction (identity resolution,
request body parsing, the upstream fetch, the audit insert) and the
embedded handler computes the response, the list of upstream calls made,
and, for the audited route, the ordered list of observable events.
-/

namespace Pdp

/-- Model of a JavaScript exception value as observed by a `catch` clause:
whether it is an `Error` instance (`instanceof Error`), its `name`
(e.g. "AbortError") and its `message`. -/
structure JsError where
  isError : Bool
  name : String
  message : String
deriving DecidableEq, Repr

/-- JavaScript `a || b` for a possibly absent string `a` with a string
fallback `b`: `undefined`/`null` and the empty string are falsy, so the
fallback is used exactly in those cases. -/
def jsOrStr (a : Option String) (b : String) : String :=
  match a with
  | some s => if s = "" then b else s
  | none => b

/-- JavaScript `x || null` for a possibly absent string `x`: an absent
value or the empty string becomes `null` (`none`); any other string is
kept. -/
def jsOrNull (a : Option String) : Option String :=
  match a with
  | some s => if s = "" then none else some s
  | none => none

/-! ## Data model (from `types/analysis.ts`)

Types matching the frontend type declarations, which themselves mirror
the Python Pydantic models of the backend.  TypeScript `number` fields
are rendered as `Int`; optional (`| null`) fields as `Option`. -/

/-- From `types/analysis.ts`: `Priority`. -/
inductive Priority where
  | critical
  | high
  | medium
  | low
deriving DecidableEq, Repr

/-- From `types/analysis.ts`: `CompetitorReason`. -/
structure CompetitorReason where
  reason : String
  detail : String
deriving DecidableEq, Repr

/-- From `types/analysis.ts`: `CompetitorFinderResponse`, the
CompetitorDiscovery record returned by stage 1.  Note its category field
is named `source_category`; there is no `product_category` field. -/
structure CompetitorFinderResponse where
  source_product_name : String
  source_brand : String
  source_category : String
  source_price : Option String
  competitor_url : String
  competitor_product_name : String
  competitor_brand : String
  competitor_image_url : Option String
  competitor_price : Option String
  reasons : List CompetitorReason
  other_competitors_considered : List String
deriving DecidableEq, Repr

/-- From `types/analysis.ts`: `TitleAnalysis`. -/
structure TitleAnalysis where
  title_text : String
  character_count : Int
  keyword_richness : Int
  clarity : Int
  emotional_appeal : Int
  observations : List String
deriving DecidableEq, Repr

/-- From `types/analysis.ts`: `DescriptionAnalysis`. -/
structure DescriptionAnalysis where
  has_bullet_points : Bool
  bullet_point_count : Int
  description_length : String
  benefit_focused : Int
  readability : Int
  completeness : Int
  unique_selling_points : List String
  observations : List String
deriving DecidableEq, Repr

/-- From `types/analysis.ts`: `ImageAnalysis`. -/
structure ImageAnalysis where
  image_count : Int
  has_lifestyle_images : Bool
  has_detail_shots : Bool
  has_size_reference : Bool
  has_video : Bool
  image_quality_score : Int
  image_variety_score : Int
  observations : List String
deriving DecidableEq, Repr

/-- From `types/analysis.ts`: `PricingAnalysis`. -/
structure PricingAnalysis where
  price_displayed : String
  has_original_price : Bool
  has_discount_badge : Bool
  has_promotional_offer : Bool
  price_visibility_score : Int
  value_proposition_score : Int
  observations : List String
deriving DecidableEq, Repr

/-- From `types/analysis.ts`: `ReviewsAnalysis`. -/
structure ReviewsAnalysis where
  average_rating : Option Int
  review_count : Option Int
  has_review_summary : Bool
  has_review_images : Bool
  has_seller_responses : Bool
  has_verified_purchase_badges : Bool
  social_proof_score : Int
  observations : List String
deriving DecidableEq, Repr

/-- From `types/analysis.ts`: `SEOAnalysis`. -/
structure SEOAnalysis where
  has_structured_data : Bool
  keyword_usage_score : Int
  breadcrumb_navigation : Bool
  url_structure_score : Int
  observations : List String
deriving DecidableEq, Repr

/-- From `types/analysis.ts`: `CTAAnalysis`. -/
structure CTAAnalysis where
  primary_cta_text : String
  cta_visibility_score : Int
  has_urgency_elements : Bool
  has_trust_badges : Bool
  has_guarantee_info : Bool
  secondary_ctas : List String
  conversion_optimization_score : Int
  observations : List String
deriving DecidableEq, Repr

/-- From `types/analysis.ts`: `PDPAnalysis`. -/
structure PDPAnalysis where
  url : String
  product_name : String
  brand : Option String
  category : Option String
  title : TitleAnalysis
  description : DescriptionAnalysis
  images : ImageAnalysis
  pricing : PricingAnalysis
  reviews : ReviewsAnalysis
  seo : SEOAnalysis
  cta : CTAAnalysis
  overall_score : Int
  strengths : List String
  weaknesses : List String
deriving DecidableEq, Repr

/-- From `types/analysis.ts`: `ComparisonDimension`. -/
structure ComparisonDimension where
  dimension : String
  source_score : Int
  reference_score : Int
  winner : String
  gap_analysis : String
deriving DecidableEq, Repr

/-- From `types/analysis.ts`: `CompetitiveComparison`. -/
structure CompetitiveComparison where
  title_comparison : ComparisonDimension
  description_comparison : ComparisonDimension
  images_comparison : ComparisonDimension
  pricing_comparison : ComparisonDimension
  reviews_comparison : ComparisonDimension
  seo_comparison : ComparisonDimension
  cta_comparison : ComparisonDimension
  overall_source_score : Int
  overall_reference_score : Int
  competitive_position : String
deriving DecidableEq, Repr

/-- From `types/analysis.ts`: `ImprovementRecommendation`. -/
structure ImprovementRecommendation where
  priority : Priority
  dimension : String
  recommendation : String
  rationale : String
  implementation_effort : String
  expected_impact : String
  example_from_reference : Option String
deriving DecidableEq, Repr

/-- From `types/analysis.ts`: `AnalysisReport`, the stage 2 result. -/
structure AnalysisReport where
  analysis_timestamp : String
  source_pdp : PDPAnalysis
  reference_pdp : PDPAnalysis
  comparison : CompetitiveComparison
  recommendations : List ImprovementRecommendation
  executive_summary : String
deriving DecidableEq, Repr

/-- JavaScript property access `d[key]` on a `CompetitorFinderResponse`
value, restricted to string-or-null valued keys.  A key that the
interface does not declare (and that the backend, whose Pydantic models
the interface mirrors, therefore does not send) reads as `undefined`,
rendered `none`.  In particular `d.strField "product_category" = none`
for every `d`: the declared category field is `source_category`. -/
def CompetitorFinderResponse.strField (d : CompetitorFinderResponse)
    (key : String) : Option String :=
  if key = "source_product_name" then some d.source_product_name
  else if key = "source_brand" then some d.source_brand
  else if key = "source_category" then some d.source_category
  else if key = "source_price" then d.source_price
  else if key = "competitor_url" then some d.competitor_url
  else if key = "competitor_product_name" then some d.competitor_product_name
  else if key = "competitor_brand" then some d.competitor_brand
  else if key = "competitor_image_url" then d.competitor_image_url
  else if key = "competitor_price" then d.competitor_price
  else none

/-! ## Gateway route handlers

The four route handlers under `src/frontend/src/app/api/.../route.ts`
(and the authenticated variants found among the unnamed sources) share
one shape: parse the request body, `fetch` the backend with an
`AbortController` whose timer aborts the call after a fixed budget,
map a non-ok upstream status to `{ success:false, error }` with the
upstream status, pass an ok response through verbatim, and map caught
exceptions to 504 (AbortError) or 500 (anything else). -/

/-- The JSON request body as parsed by `request.json()`; the handlers
forward it verbatim (`JSON.stringify(body)`) and, in the audited
variant, read `body.source_url`. -/
structure ReqBody where
  source_url : Option String
  reference_url : Option String
deriving DecidableEq, Repr

/-- The JSON body of an upstream reply as read by the handlers:
`data.success`, `data.data` and `data.detail`. -/
structure UpstreamBody (α : Type) where
  success : Bool
  data : Option α
  detail : Option String
deriving DecidableEq, Repr

/-- Outcome of `await fetch(...)` followed by `await response.json()`:
either an exception (an abort fired by the cancellation timer surfaces
as an `Error` named "AbortError"; transport and parse faults as other
exceptions) or a reply with an HTTP status and a parsed body. -/
inductive UpstreamOutcome (α : Type) where
  | threw (e : JsError)
  | replied (status : Nat) (body : UpstreamBody α)
deriving DecidableEq, Repr

/-- A record of one call handed to `fetch`: the backend path, the body
forwarded verbatim, the millisecond budget of the cancellation timer
(`setTimeout(() => controller.abort(), timeoutMs)`) and whether the
abort signal was attached to the request (`signal: controller.signal`). -/
structure UpstreamCall where
  path : String
  body : ReqBody
  timeoutMs : Nat
  usesAbortSignal : Bool
deriving DecidableEq, Repr

/-- The response a handler returns: either the upstream JSON passed
through verbatim with status 200 (`NextResponse.json(data)`), or an
error body `{ success:false, error }` with an explicit status. -/
inductive RouteResponse (α : Type) where
  | passthrough (body : UpstreamBody α)
  | errorResponse (status : Nat) (error : String)
deriving DecidableEq, Repr

/-- HTTP status of a `RouteResponse` (`NextResponse.json` defaults to
200). -/
def RouteResponse.status : RouteResponse α → Nat
  | .passthrough _ => 200
  | .errorResponse s _ => s

/-- The `success` flag of the JSON body a `RouteResponse` carries; every
error response body is `{ success: false, ... }`. -/
def RouteResponse.bodySuccess : RouteResponse α → Bool
  | .passthrough b => b.success
  | .errorResponse _ _ => false

/-- `Response.ok` of the fetch API: status in the range 200..299. -/
def statusOk (s : Nat) : Bool :=
  200 ≤ s && s < 300

/-- The shared `catch` clause of every handler: an `Error` named
"AbortError" becomes a 504 with the route specific timeout message;
anything else becomes a 500 carrying the message when the thrown value
is an `Error`, else "Unknown error". -/
def catchClause (timeoutMsg : String) (e : JsError) : RouteResponse α :=
  if e.isError ∧ e.name = "AbortError" then
    .errorResponse 504 timeoutMsg
  else
    .errorResponse 500 (if e.isError then e.message else "Unknown error")

/-- Result of running a proxy handler: its response and the list of
upstream calls it made. -/
structure ProxyResult (α : Type) where
  response : RouteResponse α
  upstreamCalls : List UpstreamCall
deriving DecidableEq, Repr

/-- The common body of the proxy handlers, parameterized by the backend
path, the timeout budget, the timeout message and the fallback error
message (the four handlers differ only in these and in what precedes or
follows this core).  Mirrors the `try` block of each `POST`: parse the
body, call `fetch` with the abort signal attached, map a non-ok status
to `{ success:false, error: data.detail || fallback }` with the
upstream status, pass an ok reply through; exceptions go to
`catchClause`. -/
def proxyCore (path : String) (timeoutMs : Nat)
    (timeoutMsg fallbackErr : String)
    (body : Except JsError ReqBody) (upstream : UpstreamOutcome α) :
    ProxyResult α :=
  match body with
  | .error e => ⟨catchClause timeoutMsg e, []⟩
  | .ok b =>
    let call : UpstreamCall := ⟨path, b, timeoutMs, true⟩
    match upstream with
    | .threw e => ⟨catchClause timeoutMsg e, [call]⟩
    | .replied status ub =>
      if statusOk status then ⟨.passthrough ub, [call]⟩
      else ⟨.errorResponse status (jsOrStr ub.detail fallbackErr), [call]⟩

/-- `POST` of `src/frontend/src/app/api/find-competitor/route.ts`, the
unauthenticated Discover Competitor endpoint: backend path
`/find-competitor`, a 120000 ms cancellation timer, timeout message
"Request timed out finding competitor", fallback detail
"Failed to find competitor". -/
def findCompetitorPOST (body : Except JsError ReqBody)
    (upstream : UpstreamOutcome CompetitorFinderResponse) :
    ProxyResult CompetitorFinderResponse :=
  proxyCore "/find-competitor" 120000 "Request timed out finding competitor"
    "Failed to find competitor" body upstream

/-- `POST` of the unauthenticated Compare Pages endpoint (the `/analyze`
proxy): backend path `/analyze`, a 120000 ms cancellation timer, timeout
message "Request timed out. The analysis is taking longer than
expected.", fallback detail "Analysis failed". -/
def analyzePOST (body : Except JsError ReqBody)
    (upstream : UpstreamOutcome AnalysisReport) :
    ProxyResult AnalysisReport :=
  proxyCore "/analyze" 120000
    "Request timed out. The analysis is taking longer than expected."
    "Analysis failed" body upstream

/-- Environment of an authenticated handler: the identity resolved by
`supabase.auth.getUser()` (the stable `user.id`, or `none`), the parsed
request body, the upstream outcome, and whether the `usage_logs` insert
throws. -/
structure AuthEnv (α : Type) where
  user : Option String
  body : Except JsError ReqBody
  upstream : UpstreamOutcome α
  auditFails : Bool
deriving Repr

/-- Authenticated Compare Pages handler (the third variant in
`src/frontend/src/app/api/analyze-single/route.ts`, lines 109..135 of
the claim sources): resolve the user first and fail closed with a 401
`{ success:false, error: "Authentication required" }` before touching
the body or the backend; otherwise behave exactly as the `/analyze`
proxy with the same 120000 ms budget. -/
def analyzeAuthPOST (env : AuthEnv AnalysisReport) :
    ProxyResult AnalysisReport :=
  match env.user with
  | none => ⟨.errorResponse 401 "Authentication required", []⟩
  | some _ => analyzePOST env.body env.upstream

/-- A row handed to `supabase.from("usage_logs").insert({...})`; the
`created_at` column is absent because the schema fills it with
`now()`. -/
structure UsageLogRow where
  user_id : String
  source_url : Option String
  product_category : Option String
  competitor_brand : Option String
  competitor_url : Option String
deriving DecidableEq, Repr

/-- The row the authenticated Discover Competitor handler builds from
the resolved user, the request body and the upstream payload `d`:
`user_id: user.id`, `source_url: body.source_url`, and the three
discovery columns via `data.data.KEY || null`.  The property reads use
`strField`, so `product_category` reads a key the discovery type does
not declare. -/
def usageRow (uid : String) (b : ReqBody) (d : CompetitorFinderResponse) :
    UsageLogRow :=
  { user_id := uid
    source_url := b.source_url
    product_category := jsOrNull (d.strField "product_category")
    competitor_brand := jsOrNull (d.strField "competitor_brand")
    competitor_url := jsOrNull (d.strField "competitor_url") }

/-- The `await supabase.from("usage_logs").insert(row)` step, modeled as
fallible: when the environment injects a failure it raises, otherwise it
returns unit. -/
def usageInsert (fails : Bool) (_row : UsageLogRow) : Except JsError Unit :=
  if fails then
    .error { isError := true, name := "Error", message := "usage_logs insert failed" }
  else
    .ok ()

/-- An observable event of the audited handler, in execution order: an
upstream fetch, a `usage_logs` insert attempt, or the return of the
response to the caller. -/
inductive RouteEvent (α : Type) where
  | upstreamCall (c : UpstreamCall)
  | auditInsert (row : UsageLogRow)
  | respond (r : RouteResponse α)
deriving DecidableEq, Repr

/-- Whether an event is the `usage_logs` insert attempt. -/
def RouteEvent.isAudit : RouteEvent α → Bool
  | .auditInsert _ => true
  | _ => false

/-- Whether an event is the return of the response. -/
def RouteEvent.isRespond : RouteEvent α → Bool
  | .respond _ => true
  | _ => false

/-- A run of the audited handler: its response, its upstream calls, and
the ordered event trace. -/
structure AuditedResult (α : Type) where
  response : RouteResponse α
  upstreamCalls : List UpstreamCall
  events : List (RouteEvent α)
deriving Repr

/-- The audit insert attempts recorded in a run of the audited
handler. -/
def auditRows (r : AuditedResult α) : List UsageLogRow :=
  r.events.filterMap fun e =>
    match e with
    | .auditInsert row => some row
    | _ => none

/-- The position of the response return relative to the audit insert:
this holds when the first respond event comes strictly before the first
audit event, i.e. when the response is returned without waiting for the
insert. -/
def respondBeforeAudit (evs : List (RouteEvent α)) : Prop :=
  evs.findIdx RouteEvent.isRespond < evs.findIdx RouteEvent.isAudit

/-- `POST` of the authenticated Discover Competitor handler
(`src/unnamed/part_001`, first document): resolve the user and fail
closed with 401 when absent; otherwise run the `/find-competitor` proxy
body with a 300000 ms cancellation timer; on a successful reply
(`response.ok` and `data.success && data.data`) build the usage row and
`await` the `usage_logs` insert inside an inner `try`/`catch` whose
`catch` only logs (`console.error`), then return the upstream JSON
verbatim.  The event list records the execution order: the insert
attempt happens before the response is returned. -/
def findCompetitorAuthPOST (env : AuthEnv CompetitorFinderResponse) :
    AuditedResult CompetitorFinderResponse :=
  match env.user with
  | none =>
    let r : RouteResponse CompetitorFinderResponse :=
      .errorResponse 401 "Authentication required"
    ⟨r, [], [.respond r]⟩
  | some uid =>
    match env.body with
    | .error e =>
      let r : RouteResponse CompetitorFinderResponse :=
        catchClause "Request timed out finding competitor" e
      ⟨r, [], [.respond r]⟩
    | .ok b =>
      let call : UpstreamCall := ⟨"/find-competitor", b, 300000, true⟩
      match env.upstream with
      | .threw e =>
        let r : RouteResponse CompetitorFinderResponse :=
          catchClause "Request timed out finding competitor" e
        ⟨r, [call], [.upstreamCall call, .respond r]⟩
      | .replied status ub =>
        if statusOk status then
          match ub.data with
          | some d =>
            if ub.success then
              let row := usageRow uid b d
              let r : RouteResponse CompetitorFinderResponse := .passthrough ub
              match usageInsert env.auditFails row with
              | .ok _ =>
                ⟨r, [call], [.upstreamCall call, .auditInsert row, .respond r]⟩
              | .error _ =>
                ⟨r, [call], [.upstreamCall call, .auditInsert row, .respond r]⟩
            else
              let r : RouteResponse CompetitorFinderResponse := .passthrough ub
              ⟨r, [call], [.upstreamCall call, .respond r]⟩
          | none =>
            let r : RouteResponse CompetitorFinderResponse := .passthrough ub
            ⟨r, [call], [.upstreamCall call, .respond r]⟩
        else
          let r : RouteResponse CompetitorFinderResponse :=
            .errorResponse status (jsOrStr ub.detail "Failed to find competitor")
          ⟨r, [call], [.upstreamCall call, .respond r]⟩

/-! ## Client orchestration state machine
(`src/frontend/src/app/page.tsx`, `Home` and `handleSubmit`)

The page holds four `useState` cells (`sourceUrl`, `loadingStep`,
`error`, `results`) plus `competitorFound`.  `handleSubmit` drives the
two stage chain; React batches the synchronous `set...` calls between
two `await` points into one observable state update, so the embedding
steps from one observable state to the next per batch and records, per
run, the ordered list of observable states together with the bodies of
the two fetches. -/

/-- From `page.tsx`: `type LoadingStep`. -/
inductive LoadingStep where
  | idle
  | finding_competitor
  | analyzing
  | complete
deriving DecidableEq, Repr

/-- From `page.tsx`: `interface CombinedResults`.  The interface
declares `comparison: AnalysisReport`, but the stored runtime value is
`analyzeData.data`, which the code never checks for presence, so it is
modeled as optional. -/
structure CombinedResults where
  competitorDiscovery : CompetitorFinderResponse
  comparison : Option AnalysisReport
deriving DecidableEq, Repr

/-- The observable React state of `Home`. -/
structure HomeState where
  sourceUrl : String
  loadingStep : LoadingStep
  error : Option String
  results : Option CombinedResults
  competitorFound : Option CompetitorFinderResponse
deriving DecidableEq, Repr

/-- Outcome of one client side `await fetch(...)` plus
`await response.json()` pair: either a thrown exception, or a response
with its `ok` flag and the JSON fields `handleSubmit` reads
(`success`, `detail`, `error`, `data`). -/
inductive StageResult (α : Type) where
  | threw (e : JsError)
  | response (ok : Bool) (success : Bool) (detail errField : Option String)
      (data : Option α)
deriving DecidableEq, Repr

/-- The environment of one `handleSubmit` run: the outcome of the
`/api/find-competitor` call and of the `/api/analyze` call (the latter
unused when stage 1 fails). -/
structure RunEnv where
  discovery : StageResult CompetitorFinderResponse
  analysis : StageResult AnalysisReport
deriving Repr

/-- The body of the stage 2 fetch:
`JSON.stringify({ source_url, reference_url })`. -/
structure AnalyzeBody where
  source_url : String
  reference_url : String
deriving DecidableEq, Repr

/-- One `handleSubmit` run: the ordered list of observable states (one
per React update batch, the initial state excluded), the final state,
and the bodies sent to the two endpoints. -/
structure RunResult where
  trace : List HomeState
  final : HomeState
  findCalls : List String
  analyzeCalls : List AnalyzeBody
deriving Repr

/-- The first update batch of `handleSubmit`:
`setLoadingStep("finding_competitor"); setError(null); setResults(null);
setCompetitorFound(null)` — the prior error, results and stored
competitor are cleared as the machine enters `finding_competitor`. -/
def submitClear (s : HomeState) : HomeState :=
  { s with loadingStep := .finding_competitor, error := none,
           results := none, competitorFound := none }

/-- The `catch` batch of `handleSubmit`:
`setError(err instanceof Error ? err.message : "An error occurred");
setLoadingStep("idle")`. -/
def failState (s : HomeState) (e : JsError) : HomeState :=
  { s with error := some (if e.isError then e.message else "An error occurred"),
           loadingStep := .idle }

/-- The `Error` thrown by `handleSubmit` for a failed stage:
`new Error(data.detail || data.error || fallback)`. -/
def stageError (detail errField : Option String) (fallback : String) : JsError :=
  { isError := true, name := "Error",
    message := jsOrStr detail (jsOrStr errField fallback) }

/-- The TypeError raised when `competitorData.data` is absent and the
stage 2 body evaluates `competitorData.data.competitor_url` (message
abbreviated from the runtime one; only its nonemptiness matters). -/
def dataTypeError : JsError :=
  { isError := true, name := "TypeError",
    message := "Cannot read properties of undefined" }

/-- One run of `handleSubmit` from observable state `s` under
environment `env`, following `page.tsx` batch by batch:
submit clears and enters `finding_competitor`; a stage 1 exception,
non-ok response or `success:false` payload lands in the `catch` batch
(back to `idle` with the error message) without any stage 2 fetch; a
stage 1 success stores the discovery and enters `analyzing`, then issues
the stage 2 fetch with `source_url` unchanged and
`reference_url = competitorData.data.competitor_url`; stage 2 failure
lands in `catch`; stage 2 success stores
`{ competitorDiscovery, comparison }` and enters `complete`. -/
def handleSubmit (s : HomeState) (env : RunEnv) : RunResult :=
  let s1 := submitClear s
  match env.discovery with
  | .threw e => ⟨[s1, failState s1 e], failState s1 e, [s.sourceUrl], []⟩
  | .response ok succ dt er da =>
    if !ok || !succ then
      let s2 := failState s1 (stageError dt er "Failed to find competitor")
      ⟨[s1, s2], s2, [s.sourceUrl], []⟩
    else
      match da with
      | none =>
        let s2 := { s1 with competitorFound := none,
                            error := some dataTypeError.message,
                            loadingStep := .idle }
        ⟨[s1, s2], s2, [s.sourceUrl], []⟩
      | some d =>
        let s2 := { s1 with competitorFound := some d,
                            loadingStep := .analyzing }
        let body : AnalyzeBody := ⟨s.sourceUrl, d.competitor_url⟩
        match env.analysis with
        | .threw e =>
          ⟨[s1, s2, failState s2 e], failState s2 e, [s.sourceUrl], [body]⟩
        | .response ok2 succ2 dt2 er2 da2 =>
          if !ok2 || !succ2 then
            let s3 := failState s2 (stageError dt2 er2 "Analysis failed")
            ⟨[s1, s2, s3], s3, [s.sourceUrl], [body]⟩
          else
            let s3 := { s2 with results := some ⟨d, da2⟩,
                                loadingStep := .complete }
            ⟨[s1, s2, s3], s3, [s.sourceUrl], [body]⟩

/-- The state machine invariant of the claims: combined results are only
ever held in the `complete` state, and an error message and results are
never both present. -/
def invariant (s : HomeState) : Prop :=
  (s.results.isSome → s.loadingStep = .complete)
    ∧ ¬(s.error.isSome ∧ s.results.isSome)

instance (s : HomeState) : Decidable (invariant s) := by
  unfold invariant
  infer_instance

/-! ## Concrete sample values used by witnesses and counterexamples -/

/-- A fully populated discovery result, with category field
`source_category = "Shoes"`. -/
def cexDiscovery : CompetitorFinderResponse :=
  { source_product_name := "Trail Shoe X"
    source_brand := "YourCo"
    source_category := "Shoes"
    source_price := some "$100"
    competitor_url := "https://rival.example/p"
    competitor_product_name := "Rival Shoe"
    competitor_brand := "RivalCo"
    competitor_image_url := none
    competitor_price := some "$120"
    reasons := [{ reason := "strong page", detail := "high scores" }]
    other_competitors_considered := ["OtherCo"] }

/-- A well formed request body. -/
def sampleBody : ReqBody :=
  { source_url := some "https://store.example/products/x", reference_url := none }

/-- A request body whose `source_url` is present but empty. -/
def emptyUrlBody : ReqBody :=
  { source_url := some "", reference_url := none }

/-- A successful upstream discovery reply body. -/
def okUpstreamBody : UpstreamBody CompetitorFinderResponse :=
  { success := true, data := some cexDiscovery, detail := none }

/-- An authenticated discovery environment with a resolved user, a good
body, a successful upstream reply, and a healthy audit sink. -/
def authSuccessEnv : AuthEnv CompetitorFinderResponse :=
  { user := some "u_1", body := .ok sampleBody,
    upstream := .replied 200 okUpstreamBody, auditFails := false }

/-- A quiescent client state holding a typed in URL. -/
def sampleState : HomeState :=
  { sourceUrl := "https://store.example/products/x", loadingStep := .idle,
    error := none, results := none, competitorFound := none }

/-- A client run environment whose discovery stage replies with a non-ok
response. -/
def envDiscFail : RunEnv :=
  { discovery := .response false true none none none
    analysis := .threw { isError := true, name := "Error", message := "unreachable" } }

end Pdp

namespace Pdp

/-- Helper: the JavaScript fallback chain `a || b` never yields the empty
string when the fallback `b` is nonempty. -/
theorem jsOrStr_ne_empty (a : Option String) (b : String) (hb : b ≠ "") :
    jsOrStr a b ≠ "" := by
  cases a with
  | none => simpa [jsOrStr] using hb
  | some s => by_cases hs : s = "" <;> simp [jsOrStr, hs, hb]

/-- Claim C1: for every successful discovery result, the subsequent
Compare Pages request of `handleSubmit` carries
`reference_url = competitorData.data.competitor_url` exactly, with
`source_url` unchanged from the submitted value — whatever the outcome
of the comparison stage is. -/
theorem C1_compare_request_carries_discovery_url (s : HomeState)
    (dt er : Option String) (d : CompetitorFinderResponse)
    (ana : StageResult AnalysisReport) :
    (handleSubmit s ⟨.response true true dt er (some d), ana⟩).analyzeCalls
        = [⟨s.sourceUrl, d.competitor_url⟩]
    ∧ (handleSubmit s ⟨.response true true dt er (some d), ana⟩).findCalls
        = [s.sourceUrl] := by
  cases ana with
  | threw e => exact ⟨rfl, rfl⟩
  | response ok2 succ2 dt2 er2 da2 =>
    refine ⟨?_, ?_⟩ <;>
    · simp only [handleSubmit]
      rw [if_neg (show ¬((!true || !true) = true) by decide)]
      split <;> rfl

/-- Claim C2: a request to either authenticated variant endpoint in which
no identity resolves returns the 401 auth denial response
`{ success:false, error:"Authentication required" }` and makes zero
upstream calls, for every body, upstream behavior and audit sink
state. -/
theorem C2_unresolved_identity_denied_locally
    (bF : Except JsError ReqBody)
    (upF : UpstreamOutcome CompetitorFinderResponse) (afF : Bool)
    (bA : Except JsError ReqBody) (upA : UpstreamOutcome AnalysisReport)
    (afA : Bool) :
    ((findCompetitorAuthPOST ⟨none, bF, upF, afF⟩).response
          = .errorResponse 401 "Authentication required"
      ∧ (findCompetitorAuthPOST ⟨none, bF, upF, afF⟩).response.status = 401
      ∧ (findCompetitorAuthPOST ⟨none, bF, upF, afF⟩).upstreamCalls = [])
    ∧ ((analyzeAuthPOST ⟨none, bA, upA, afA⟩).response
          = .errorResponse 401 "Authentication required"
      ∧ (analyzeAuthPOST ⟨none, bA, upA, afA⟩).response.status = 401
      ∧ (analyzeAuthPOST ⟨none, bA, upA, afA⟩).upstreamCalls = []) :=
  ⟨⟨rfl, rfl, rfl⟩, ⟨rfl, rfl, rfl⟩⟩

/-- Claim C3: the response of the authenticated Discover Competitor
endpoint is identical whether or not the `usage_logs` insert throws, for
every identity, body and upstream outcome; the audit error never
propagates to the caller. -/
theorem C3_audit_failure_leaves_response_unchanged (u : Option String)
    (b : Except JsError ReqBody)
    (up : UpstreamOutcome CompetitorFinderResponse) :
    (findCompetitorAuthPOST ⟨u, b, up, true⟩).response
      = (findCompetitorAuthPOST ⟨u, b, up, false⟩).response := by
  cases u with
  | none => rfl
  | some uid =>
    cases b with
    | error e => rfl
    | ok bb =>
      cases up with
      | threw e => rfl
      | replied st ub =>
        obtain ⟨su, da, dtl⟩ := ub
        by_cases hst : statusOk st = true
        · cases da with
          | none => simp [findCompetitorAuthPOST, hst]
          | some d =>
            cases su with
            | false => simp [findCompetitorAuthPOST, hst]
            | true => simp [findCompetitorAuthPOST, hst, usageInsert]
        · simp [findCompetitorAuthPOST, hst]

/-- Claim C4: when the upstream fetch of the Discover Competitor gateway
is aborted by the cancellation timer — the caught value is an `Error`
named "AbortError" — the endpoint returns status 504 with a
`success:false` body carrying the timeout message, and the single
recorded fetch attempt had the abort signal attached
(`signal: controller.signal`), which is what cancels the in-flight
call when the timer fires. -/
theorem C4_abort_maps_to_504_timeout (b : ReqBody) (msg : String) :
    (findCompetitorPOST (.ok b) (.threw ⟨true, "AbortError", msg⟩)).response
        = .errorResponse 504 "Request timed out finding competitor"
    ∧ (findCompetitorPOST (.ok b) (.threw ⟨true, "AbortError", msg⟩)).response.status
        = 504
    ∧ (findCompetitorPOST (.ok b)
        (.threw ⟨true, "AbortError", msg⟩)).response.bodySuccess = false
    ∧ (findCompetitorPOST (.ok b) (.threw ⟨true, "AbortError", msg⟩)).upstreamCalls
        = [⟨"/find-competitor", b, 120000, true⟩] :=
  ⟨rfl, rfl, rfl, rfl⟩

/-- Counterexample to claim C5 as stated: a Discover Competitor request
whose `source_url` is the empty string is not rejected locally — the
gateway forwards it to the upstream service (one upstream call is made)
and passes the upstream reply through as its own response. -/
theorem C5_counterexample_empty_source_url_forwarded :
    emptyUrlBody.source_url = some ""
    ∧ (findCompetitorPOST (.ok emptyUrlBody)
        (.replied 200 okUpstreamBody)).upstreamCalls
        = [⟨"/find-competitor", emptyUrlBody, 120000, true⟩]
    ∧ (findCompetitorPOST (.ok emptyUrlBody)
        (.replied 200 okUpstreamBody)).response = .passthrough okUpstreamBody :=
  ⟨rfl, rfl, rfl⟩

/-- Claim C5 amended: the Discover Competitor gateway performs no
validation of `source_url` at all — every request whose body parses is
forwarded verbatim to the upstream service regardless of `source_url`
presence (rejection of malformed input is delegated upstream), and the
only locally resolved failure of the unauthenticated variant is a body
that fails to parse, which yields a local error with no upstream
call. -/
theorem C5_amended_no_local_validation (b : ReqBody)
    (up up2 : UpstreamOutcome CompetitorFinderResponse) (e : JsError) :
    (findCompetitorPOST (.ok b) up).upstreamCalls
        = [⟨"/find-competitor", b, 120000, true⟩]
    ∧ (findCompetitorPOST (.error e) up2).upstreamCalls = [] := by
  refine ⟨?_, rfl⟩
  cases up with
  | threw _ => rfl
  | replied st ub => simp only [findCompetitorPOST, proxyCore]; split <;> rfl

/-- Counterexample to claim C6 as stated: the two deployed Discover
Competitor variants do not use the same timeout budget — on the same
request the unauthenticated handler arms a 120000 ms cancellation timer
while the authenticated handler arms a 300000 ms one. -/
theorem C6_counterexample_timeout_budgets_differ :
    (findCompetitorPOST (.ok sampleBody)
        (.replied 200 okUpstreamBody)).upstreamCalls.map UpstreamCall.timeoutMs
        = [120000]
    ∧ (findCompetitorAuthPOST authSuccessEnv).upstreamCalls.map
        UpstreamCall.timeoutMs = [300000]
    ∧ (120000 : Nat) ≠ 300000 :=
  ⟨rfl, rfl, by decide⟩

/-- Claim C6 amended: given a resolved identity, each authenticated
variant returns exactly the same response as its unauthenticated
counterpart for every body and upstream outcome (same response shape and
error mapping, independent of audit sink state); the variants differ
only in the authentication gate, the audit write, and — for Discover
Competitor — the timeout budget (300000 ms authenticated versus
120000 ms unauthenticated, as exhibited by the counterexample). -/
theorem C6_amended_identical_up_to_gate_audit_timeout (u : String)
    (bd : Except JsError ReqBody)
    (upF : UpstreamOutcome CompetitorFinderResponse)
    (upA : UpstreamOutcome AnalysisReport) (af af2 : Bool) :
    (findCompetitorAuthPOST ⟨some u, bd, upF, af⟩).response
        = (findCompetitorPOST bd upF).response
    ∧ (analyzeAuthPOST ⟨some u, bd, upA, af2⟩).response
        = (analyzePOST bd upA).response := by
  refine ⟨?_, rfl⟩
  cases bd with
  | error e => rfl
  | ok b =>
    cases upF with
    | threw e => rfl
    | replied st ub =>
      obtain ⟨su, da, dtl⟩ := ub
      by_cases hst : statusOk st = true
      · cases da with
        | none => simp [findCompetitorAuthPOST, findCompetitorPOST, proxyCore, hst]
        | some d =>
          cases su with
          | false =>
            simp [findCompetitorAuthPOST, findCompetitorPOST, proxyCore, hst]
          | true =>
            cases af <;>
              simp [findCompetitorAuthPOST, findCompetitorPOST, proxyCore, hst,
                usageInsert]
      · simp [findCompetitorAuthPOST, findCompetitorPOST, proxyCore, hst]

/-- Counterexample to claim C7 as stated: in a successful authenticated
discovery run the response is not returned before the audit write — the
`usage_logs` insert is awaited inline, so in the event trace the insert
strictly precedes the response return, refuting fire-and-forget. -/
theorem C7_counterexample_audit_before_respond :
    (findCompetitorAuthPOST authSuccessEnv).response = .passthrough okUpstreamBody
    ∧ ¬ respondBeforeAudit (findCompetitorAuthPOST authSuccessEnv).events := by
  refine ⟨rfl, ?_⟩
  unfold respondBeforeAudit
  decide

/-- Claim C7 amended: the audit write of a successful authenticated
discovery is executed synchronously on the response path — the handler
awaits the `usage_logs` insert between receiving the upstream reply and
returning the response, so the insert event strictly precedes the
respond event in every such run (its outcome still never changes the
response, per the C3 theorem). -/
theorem C7_amended_audit_awaited_inline (uid : String) (b : ReqBody)
    (st : Nat) (dtl : Option String) (d : CompetitorFinderResponse)
    (af : Bool) (hst : statusOk st = true) :
    (findCompetitorAuthPOST
        ⟨some uid, .ok b, .replied st ⟨true, some d, dtl⟩, af⟩).events
      = [.upstreamCall ⟨"/find-competitor", b, 300000, true⟩,
         .auditInsert (usageRow uid b d),
         .respond (.passthrough ⟨true, some d, dtl⟩)]
    ∧ (findCompetitorAuthPOST
        ⟨some uid, .ok b, .replied st ⟨true, some d, dtl⟩, af⟩).events.findIdx
          RouteEvent.isAudit
      < (findCompetitorAuthPOST
        ⟨some uid, .ok b, .replied st ⟨true, some d, dtl⟩, af⟩).events.findIdx
          RouteEvent.isRespond := by
  have hev : (findCompetitorAuthPOST
      ⟨some uid, .ok b, .replied st ⟨true, some d, dtl⟩, af⟩).events
      = [.upstreamCall ⟨"/find-competitor", b, 300000, true⟩,
         .auditInsert (usageRow uid b d),
         .respond (.passthrough ⟨true, some d, dtl⟩)] := by
    cases af <;> simp [findCompetitorAuthPOST, hst, usageInsert]
  refine ⟨hev, ?_⟩
  rw [hev]
  simp [List.findIdx_cons, RouteEvent.isAudit, RouteEvent.isRespond]

/-- Witness for the amended C7 theorem at a concrete input. -/
theorem C7_amended_witness :
    (findCompetitorAuthPOST
        ⟨some "u_1", .ok sampleBody,
          .replied 200 ⟨true, some cexDiscovery, none⟩, false⟩).events
      = [.upstreamCall ⟨"/find-competitor", sampleBody, 300000, true⟩,
         .auditInsert (usageRow "u_1" sampleBody cexDiscovery),
         .respond (.passthrough ⟨true, some cexDiscovery, none⟩)]
    ∧ (findCompetitorAuthPOST
        ⟨some "u_1", .ok sampleBody,
          .replied 200 ⟨true, some cexDiscovery, none⟩, false⟩).events.findIdx
          RouteEvent.isAudit
      < (findCompetitorAuthPOST
        ⟨some "u_1", .ok sampleBody,
          .replied 200 ⟨true, some cexDiscovery, none⟩, false⟩).events.findIdx
          RouteEvent.isRespond :=
  C7_amended_audit_awaited_inline "u_1" sampleBody 200 none cexDiscovery false rfl

/-- Counterexample to claim C8 as stated: for a successful discovery
whose category field `source_category` is "Shoes", the audit row written
has `product_category = none` — the handler reads a `product_category`
key that the discovery type does not declare — so `product_category` is
not populated from the discovery category field. -/
theorem C8_counterexample_product_category_not_from_discovery :
    auditRows (findCompetitorAuthPOST authSuccessEnv)
      = [{ user_id := "u_1",
           source_url := some "https://store.example/products/x",
           product_category := none,
           competitor_brand := some "RivalCo",
           competitor_url := some "https://rival.example/p" }]
    ∧ cexDiscovery.source_category = "Shoes"
    ∧ (auditRows (findCompetitorAuthPOST authSuccessEnv)).map
        UsageLogRow.product_category ≠ [some cexDiscovery.source_category] :=
  ⟨rfl, rfl, by decide⟩

/-- Claim C8 amended: the audit row of every successful authenticated
discovery carries `user_id` from the resolved identity, `source_url`
from the request body, and `competitor_brand` and `competitor_url` from
the discovery (empty strings coerced to null by `|| null`), but
`product_category` is read from a `product_category` key absent from
`CompetitorFinderResponse` — whose category field is `source_category` —
and is therefore always null; `created_at` is left to the database
default. -/
theorem C8_amended_audit_row_fields (uid : String) (b : ReqBody)
    (st : Nat) (dtl : Option String) (d : CompetitorFinderResponse)
    (af : Bool) (hst : statusOk st = true) :
    auditRows (findCompetitorAuthPOST
        ⟨some uid, .ok b, .replied st ⟨true, some d, dtl⟩, af⟩)
      = [{ user_id := uid, source_url := b.source_url,
           product_category := none,
           competitor_brand := jsOrNull (some d.competitor_brand),
           competitor_url := jsOrNull (some d.competitor_url) }] := by
  cases af <;>
    simp [auditRows, findCompetitorAuthPOST, hst, usageInsert, usageRow,
      CompetitorFinderResponse.strField, jsOrNull]

/-- Witness for the amended C8 theorem at a concrete input. -/
theorem C8_amended_witness :
    auditRows (findCompetitorAuthPOST
        ⟨some "u_1", .ok sampleBody,
          .replied 200 ⟨true, some cexDiscovery, none⟩, false⟩)
      = [{ user_id := "u_1", source_url := sampleBody.source_url,
           product_category := none,
           competitor_brand := jsOrNull (some cexDiscovery.competitor_brand),
           competitor_url := jsOrNull (some cexDiscovery.competitor_url) }] :=
  C8_amended_audit_row_fields "u_1" sampleBody 200 none cexDiscovery false rfl

/-- Claim C9: whenever the discovery stage fails — a thrown fetch error,
a non-ok response (which is how a gateway timeout surfaces, as a 504),
or a `success:false` payload — the client run goes
`finding_competitor` then back to `idle`, the final state holds a
nonempty error string, and the Compare Pages endpoint is never invoked;
moreover the remaining discovery shapes that skip stage 2 (a success
flag with missing data) also make no Compare Pages call, so stage 2 runs
only after a fully successful stage 1. -/
theorem C9_discovery_failure_returns_to_idle (s : HomeState)
    (ana : StageResult AnalysisReport) :
    (∀ succ dt er da,
        (handleSubmit s ⟨.response false succ dt er da, ana⟩).trace.map
            HomeState.loadingStep = [.finding_competitor, .idle]
        ∧ (∃ m, (handleSubmit s ⟨.response false succ dt er da, ana⟩).final.error
              = some m ∧ m ≠ "")
        ∧ (handleSubmit s ⟨.response false succ dt er da, ana⟩).analyzeCalls = [])
    ∧ (∀ ok dt er da,
        (handleSubmit s ⟨.response ok false dt er da, ana⟩).trace.map
            HomeState.loadingStep = [.finding_competitor, .idle]
        ∧ (∃ m, (handleSubmit s ⟨.response ok false dt er da, ana⟩).final.error
              = some m ∧ m ≠ "")
        ∧ (handleSubmit s ⟨.response ok false dt er da, ana⟩).analyzeCalls = [])
    ∧ (∀ e, (handleSubmit s ⟨.threw e, ana⟩).analyzeCalls = [])
    ∧ (∀ dt er,
        (handleSubmit s ⟨.response true true dt er none, ana⟩).analyzeCalls = []) := by
  refine ⟨?_, ?_, fun e => rfl, fun dt er => rfl⟩
  · intro succ dt er da
    exact ⟨rfl,
      ⟨jsOrStr dt (jsOrStr er "Failed to find competitor"), rfl,
        jsOrStr_ne_empty _ _ (jsOrStr_ne_empty _ _ (by decide))⟩, rfl⟩
  · intro ok dt er da
    cases ok with
    | false =>
      exact ⟨rfl,
        ⟨jsOrStr dt (jsOrStr er "Failed to find competitor"), rfl,
          jsOrStr_ne_empty _ _ (jsOrStr_ne_empty _ _ (by decide))⟩, rfl⟩
    | true =>
      exact ⟨rfl,
        ⟨jsOrStr dt (jsOrStr er "Failed to find competitor"), rfl,
          jsOrStr_ne_empty _ _ (jsOrStr_ne_empty _ _ (by decide))⟩, rfl⟩

/-- Claim C10: every observable state produced during a `handleSubmit`
run satisfies the invariant — combined results are non-null only in the
`complete` step and never together with an error message — and the first
update batch of every submission is exactly the cleared
`finding_competitor` state: error, results and the stored competitor all
reset before the run proceeds. -/
theorem C10_state_invariant_preserved (s : HomeState) (env : RunEnv) :
    (∀ t ∈ (handleSubmit s env).trace, invariant t)
    ∧ (handleSubmit s env).trace.head? = some (submitClear s)
    ∧ (submitClear s).loadingStep = .finding_competitor
    ∧ (submitClear s).error = none
    ∧ (submitClear s).results = none
    ∧ (submitClear s).competitorFound = none := by
  obtain ⟨disc, ana⟩ := env
  refine ⟨?_, ?_, rfl, rfl, rfl, rfl⟩
  · intro t ht
    cases disc with
    | threw e =>
      simp only [handleSubmit, List.mem_cons, List.not_mem_nil, or_false] at ht
      rcases ht with rfl | rfl <;> simp [invariant, submitClear, failState]
    | response ok succ dt er da =>
      cases da with
      | none =>
        by_cases hc : (!ok || !succ) = true <;>
        · simp [handleSubmit, hc] at ht
          rcases ht with rfl | rfl <;> simp [invariant, submitClear, failState]
      | some d =>
        cases ana with
        | threw e =>
          by_cases hc : (!ok || !succ) = true
          · simp [handleSubmit, hc] at ht
            rcases ht with rfl | rfl <;> simp [invariant, submitClear, failState]
          · simp [handleSubmit, hc] at ht
            rcases ht with rfl | rfl | rfl <;>
              simp [invariant, submitClear, failState]
        | response ok2 succ2 dt2 er2 da2 =>
          by_cases hc : (!ok || !succ) = true
          · simp [handleSubmit, hc] at ht
            rcases ht with rfl | rfl <;> simp [invariant, submitClear, failState]
          · by_cases hc2 : (!ok2 || !succ2) = true
            · simp [handleSubmit, hc, hc2] at ht
              rcases ht with rfl | rfl | rfl <;>
                simp [invariant, submitClear, failState]
            · simp [handleSubmit, hc, hc2] at ht
              rcases ht with rfl | rfl | rfl <;>
                simp [invariant, submitClear, failState]
  · cases disc with
    | threw e => rfl
    | response ok succ dt er da =>
      cases da with
      | none => by_cases hc : (!ok || !succ) = true <;> simp [handleSubmit, hc]
      | some d =>
        cases ana with
        | threw e =>
          by_cases hc : (!ok || !succ) = true <;> simp [handleSubmit, hc]
        | response ok2 succ2 dt2 er2 da2 =>
          by_cases hc : (!ok || !succ) = true
          · simp [handleSubmit, hc]
          · by_cases hc2 : (!ok2 || !succ2) = true <;>
              simp [handleSubmit, hc, hc2]

/-- Witness for the C10 theorem at a concrete input: the cleared state
of the first batch of a concrete run satisfies the invariant. -/
theorem C10_state_invariant_witness : invariant (submitClear sampleState) :=
  (C10_state_invariant_preserved sampleState envDiscFail).1
    (submitClear sampleState) (List.mem_cons_self _ _)

end Pdp
